import Mathlib

/- A shallow embedding of the anthony-chege.me repository: two JavaScript data
modules (a projects array and an experience array) and six markdown content
files. JavaScript module-level values are modelled by `JSValue`, module
statements by `Stmt`, and module evaluation by `evalModule`; markdown files
are modelled by their front-matter lines and body hash lines, kept verbatim. -/

/- Values a statement of these modules can mention: string, number and boolean
literals, null, array and object literals, and (so that their absence is a
statement, not a typing accident) function values. -/
inductive JSValue where
  | str (s : String)
  | num (n : Int)
  | boolean (b : Bool)
  | nullV
  | arr (elems : List JSValue)
  | obj (fields : List (String × JSValue))
  | closure (params : List String)

/- Expressions: literals, identifier references, calls and binary operations.
The two data modules only ever use a literal and an identifier reference. -/
inductive Expr where
  | lit (v : JSValue)
  | ident (name : String)
  | call (callee : String) (args : List Expr)
  | binop (op : String) (lhs rhs : Expr)

/- Top-level module statements. The fragment includes function declarations,
conditionals, loops and expression statements so that the claim that the data
modules contain none of them is a checkable fact about the embedded modules. -/
inductive Stmt where
  | constDecl (name : String) (rhs : Expr)
  | exportDefault (e : Expr)
  | funcDecl (name : String) (params : List String)
  | ifStmt (cond : Expr)
  | whileStmt (cond : Expr)
  | exprStmt (e : Expr)

def lookupVar : List (String × JSValue) → String → Option JSValue
  | [], _ => none
  | (n, v) :: rest, x => if n == x then some v else lookupVar rest x

/- Evaluate an expression given the ambient environment `env` (everything a
module could read from outside: imports, globals, process state) and the
module-local bindings. Calls and binary operations are outside the pure-data
fragment and evaluate to none. -/
def evalExpr (env : String → Option JSValue) (locals : List (String × JSValue)) :
    Expr → Option JSValue
  | Expr.lit v => some v
  | Expr.ident x =>
      match lookupVar locals x with
      | some v => some v
      | none => env x
  | Expr.call _ _ => none
  | Expr.binop _ _ _ => none

/- Run the statements of a module in order, accumulating const bindings, until
the default export; statement forms with behaviour beyond binding or exporting
a value are outside the pure-data fragment and evaluate to none. -/
def runStmts (env : String → Option JSValue) :
    List Stmt → List (String × JSValue) → Option JSValue
  | [], _ => none
  | Stmt.constDecl n e :: rest, locals =>
      match evalExpr env locals e with
      | some v => runStmts env rest ((n, v) :: locals)
      | none => none
  | Stmt.exportDefault e :: _, locals => evalExpr env locals e
  | Stmt.funcDecl _ _ :: _, _ => none
  | Stmt.ifStmt _ :: _, _ => none
  | Stmt.whileStmt _ :: _, _ => none
  | Stmt.exprStmt _ :: _, _ => none

/- The value a module's default export evaluates to under environment `env`. -/
def evalModule (env : String → Option JSValue) (stmts : List Stmt) : Option JSValue :=
  runStmts env stmts []

/- A markdown document: the front-matter lines standing between the leading
pair of --- delimiter lines, and the body lines that start with a hash
character, both verbatim and in file order. -/
structure MarkdownDoc where
  fmLines : List String
  bodyHashLines : List String
deriving DecidableEq

/- A source file of the repository: a JavaScript module or a markdown file
(a markdown file may carry several concatenated documents). -/
inductive RepoFile where
  | jsModule (path : String) (stmts : List Stmt)
  | markdownFile (path : String) (docs : List MarkdownDoc)
/-- Translated from src/data/projectsData.js: the 10-element array literal bound to projectsData. -/
def projectsData : List JSValue := [
  JSValue.obj [("title", JSValue.str "NFT Collection"), ("description", JSValue.str "A simple Whatsapp bot for guiding students built with Twilio as the messaging client, \n    Google's Dialog flow for intent filtering, and runs on a Node.js server."), ("imgSrc", JSValue.str "/static/images/projects/bot.png"), ("href", JSValue.str "https://github.com/ondiekelijah/Student_assistant_bot")],
  JSValue.obj [("title", JSValue.str "ARM  robot in Matlab"), ("description", JSValue.str "An e-commerce API that runs on a Node.js server and uses GraphQL as a \n    query language. Optimizes \n    CRUD operation queries and provides support for product reviews and ratings.."), ("imgSrc", JSValue.str "/static/images/projects/graphql-api.png"), ("href", JSValue.str "https://github.com/ondiekelijah/GraphQL-e-commerce-API")],
  JSValue.obj [("title", JSValue.str "AWS Serverless Expense Tracker API"), ("description", JSValue.str "A serverless AWS expense tracker API. AWS Lambda functions, API gateway, \n    and Dynamodb are among the components. \n    Supports basic CRUD operations made possible by AWS lambda functions. Built with Node.js."), ("imgSrc", JSValue.str "/static/images/projects/aws-serverless-api.png"), ("href", JSValue.str "https://github.com/ondiekelijah/AWS-Serverless-API")],
  JSValue.obj [("title", JSValue.str "Social Media API"), ("description", JSValue.str "A social media API that manages user account creation with access tokens, \n    post creation, update, and deletion, \n    as well as upvotes and downvotes. Built with FastAPI and powered by a Postgres database.."), ("imgSrc", JSValue.str "/static/images/projects/social-media-api.png"), ("href", JSValue.str "https://github.com/ondiekelijah/Social-Media-App-API")],
  JSValue.obj [("title", JSValue.str "Bookmarks Manager API"), ("description", JSValue.str "A bookmark manager API that allows for simple bookmark management. \n    User creation and authentication with access tokens, adding bookmarks, updating, deleting, and viewing existing \n    bookmarks are all features. It also offers bookmark link visit tracking and statistics."), ("imgSrc", JSValue.str "/static/images/projects/bookmarks-api.png"), ("href", JSValue.str "https://github.com/ondiekelijah/BookmarksAPI")],
  JSValue.obj [("title", JSValue.str "Threaded Replies App"), ("description", JSValue.str "A Python Flask app with a MySQL database that implements a\n     nested/threaded replies commenting engine. SQLAlchemy is used as the ORM."), ("imgSrc", JSValue.str "/static/images/projects/threaded-replies.png"), ("href", JSValue.str "https://github.com/ondiekelijah/Threaded-Replies-using-Flask-SQLAlchemy-MySQL")],
  JSValue.obj [("title", JSValue.str "Olycoin"), ("description", JSValue.str "A Crpto token meant to revolutionize financial sector in Africa, It's one of the most growing tokes and being traded in Africa."), ("imgSrc", JSValue.str "/static/images/projects/web-scrapper.png"), ("href", JSValue.str "https://github.com/chegeanthony/OLYCOIN")],
  JSValue.obj [("title", JSValue.str "Nft Marker place Website"), ("description", JSValue.str "Official market-place website of NFTs,(Credit ~ Cris)."), ("imgSrc", JSValue.str "/static/images/projects/memaafrica.png"), ("href", JSValue.str "https://www.memaafrica.com/")],
  JSValue.obj [("title", JSValue.str "Olyix Technologies Website"), ("description", JSValue.str "Official website for Itesyl Technologies, a fintech company that provides real estate banking services."), ("imgSrc", JSValue.str "/static/images/projects/itesyl.png"), ("href", JSValue.str "https://olyix.com/")],
  JSValue.obj [("title", JSValue.str "Kodeec Website"), ("description", JSValue.str "Kodeec mobile app website. Kodeec is a simple, secure, real estate banking app by Itesyl Technologies."), ("imgSrc", JSValue.str "/static/images/projects/kodeec.png"), ("href", JSValue.str "https://kodeec.netlify.app/")]
]

/-- Translated from src/unnamed/part_003: the 3-element array literal bound to experienceData. -/
def experienceData : List JSValue := [
  JSValue.obj [("title", JSValue.str "Author"), ("company", JSValue.str "Educative Inc"), ("location", JSValue.str "Remote, Kenya"), ("range", JSValue.str "February 2023 - Present"), ("url", JSValue.str "https://www.educative.io/"), ("text1", JSValue.str "Creating high-quality educational content that is designed to help learners improve their skills and knowledge in various fields."), ("text2", JSValue.str "Contributing to the development of comprehensive courses that are tailored to meet the needs of learners at different levels, from beginners to advanced learners."), ("text3", JSValue.str "Through my work at Educative.io, I am committed to empowering individuals and organizations with the knowledge and skills they need to succeed in a rapidly changing world.")],
  JSValue.obj [("title", JSValue.str "Technical Writer"), ("company", JSValue.str "Draft.dev"), ("location", JSValue.str "Remote, Kenya"), ("range", JSValue.str "February 2023 - Present"), ("url", JSValue.str "https://draft.dev/"), ("text1", JSValue.str "Creating articles that focus on automation testing."), ("text2", JSValue.str "Researching and writing high-quality content that provides valuable insights into the latest trends and best practices in automation testing."), ("text3", JSValue.str "Working closely with subject matter experts and other stakeholders to ensure my articles are accurate, informative, and engaging.")],
  JSValue.obj [("title", JSValue.str "Machine Learning lead"), ("company", JSValue.str "Kirinyaga University"), ("location", JSValue.str "Kenya"), ("range", JSValue.str "January 2022 - Present"), ("url", JSValue.str "https://kyu.ac.ke/"), ("text1", JSValue.str "Responsible for leading Machine learning Club applications utilising Python and JavaScript frameworks and writing integration tests using Pytest and Jest."), ("text2", JSValue.str "Integrating applications with CircleCI for automated builds and tests."), ("text3", JSValue.str "Documenting steps taken in making an application, testing, and Integrating with CircleCI.")]
]

/-- Translated from src/data/authors/default.md: front-matter lines (between the leading --- delimiters) and the body lines that start with a hash, kept verbatim and in order. -/
def authorDoc : MarkdownDoc :=
  { fmLines := [
      "name: Anthony Chege",
      "avatar: /static/images/ondiek.png",
      "occupation: Machine Learning Engineer, Smart Contract Developer & Technical Writer",
      "company:",
      "email: anthonychege599@gmail.com",
      "twitter: https://twitter.com/Tonycodh",
      "linkedin: https://www.linkedin.com/in/anthony-chege-383893227/",
      "github: https://github.com/chegeanthony"
    ],
    bodyHashLines := [
    ] }

/-- Translated from src/data/blog/creating-an-NFT.md: front-matter lines (between the leading --- delimiters) and the body lines that start with a hash, kept verbatim and in order. -/
def nftFullDoc : MarkdownDoc :=
  { fmLines := [
      "title: 'How to Deploy Tokens (NFTs) on the Ethereum Network'",
      "description: 'A step-by-step guide to deploying Non-Fungible Tokens (NFTs) on the Ethereum Network.'",
      "date: '2023-07-03'",
      "tags: ['Blockchain', 'Ethereum', 'NFTs']"
    ],
    bodyHashLines := [
      "# Introduction",
      "# Prerequisites",
      "# Step 1: Write your Smart Contract",
      "# Step 2: Compile your Smart Contract",
      "# Step 3: Deploy your Smart Contract to the Ethereum Network",
      "# Step 4: Interact with your NFT Smart Contract",
      "# Conclusion",
      "# References",
      "# Tags"
    ] }

/-- Translated from src/data/blog/microservices-with-go-and-rabbitmq.md: front-matter lines (between the leading --- delimiters) and the body lines that start with a hash, kept verbatim and in order. -/
def microservicesDoc : MarkdownDoc :=
  { fmLines := [
      "title: Implementing Simple Microservices with Go and RabbitMQ in eCommerce",
      "date: '2023-05-23'",
      "tags: ['Go', 'Node.js', 'Docker', 'RabbitMQ', 'Microservices']",
      "draft: false",
      "summary: 'Implementation of a microservice architecture for an using eCommerce platform using Go, RabbitMQ, and Docker.'"
    ],
    bodyHashLines := [
      "# Introduction",
      "# Prerequisites",
      "# Microservices in Go",
      "## RabbitMQ and Inter-Service Communication",
      "# Implementation",
      "## Product Service",
      "# Defining the Product Struct",
      "# Implementing RabbitMQ Messaging",
      "# Order Service",
      "# Defining the Order Struct",
      "# Implementing RabbitMQ Messaging in the Order Service",
      "# Conclusion"
    ] }

/-- Translated from src/unnamed/part_000: front-matter lines (between the leading --- delimiters) and the body lines that start with a hash, kept verbatim and in order. -/
def nftShortDoc : MarkdownDoc :=
  { fmLines := [
      "title: 'How to Deploy Tokens (NFTs) on the Ethereum Network'",
      "description: 'A step-by-step guide to deploying Non-Fungible Tokens (NFTs) on the Ethereum Network.'",
      "date: '2023-07-03'",
      "tags: ['Blockchain', 'Ethereum', 'NFTs']"
    ],
    bodyHashLines := [
      "# Introduction",
      "# Prerequisites",
      "# Step 1: Write your Smart Contract"
    ] }

/-- Translated from src/unnamed/part_000: front-matter lines (between the leading --- delimiters) and the body lines that start with a hash, kept verbatim and in order. -/
def autoMLLongDoc : MarkdownDoc :=
  { fmLines := [
      "title: AutoML and Neural Architecture Search. ",
      "date: '2023-07-06'",
      "tags: ['ML', 'AI', 'Deep Learning']",
      "draft: false",
      "summary: 'This blog explores AutoML and NAS, critical in optimizing machine learning. .'"
    ],
    bodyHashLines := [
      "## Introduction",
      "## Part 1: A Primer on Automated Machine Learning (AutoML)",
      "# Understanding AutoML",
      "# Here's an example of AutoML using the Python library auto-sklearn",
      "# Load a sample dataset",
      "# Split the data",
      "# Initialize the AutoSklearnRegressor",
      "# Fit the model",
      "# Make predictions",
      "# Print the model performance",
      "## Why AutoML?",
      "# Efficiency",
      "# AutoML allows for efficient model selection and hyperparameter tuning",
      "# Accessibility",
      "#Reproducibility",
      "# The systematic approach of AutoML lends itself well to reproducibility",
      "## AutoML Challenges",
      "# Overfitting",
      "# Potential for overfitting in AutoML",
      "# Computation Time",
      "# Computation time can be high in AutoML",
      "# Lack of Transparency",
      "# AutoML can lack transparency",
      "## Part 2: Diving into Neural Architecture Search (NAS)",
      "# Code snippet: example of using NAS in Python with AutoKeras",
      "# Prepare dummy image data",
      "# Initialize the ImageClassifier which will perform the NAS",
      "# Search for the best model.",
      "# NAS: Opportunities and Challenges",
      "# Cutting-Edge NAS Approaches",
      "## Part 3: Comparing AutoML and NAS",
      "## Part 4: Looking Ahead: The Future of AutoML and NAS",
      "## Conclusion"
    ] }

/-- Translated from src/unnamed/part_001: front-matter lines (between the leading --- delimiters) and the body lines that start with a hash, kept verbatim and in order. -/
def autoMLShortDoc : MarkdownDoc :=
  { fmLines := [
      "title: AutoML and Neural Architecture Search.",
      "date: '2023-07-06'",
      "tags: ['ML', 'AI', 'Deep Learning']",
      "draft: false",
      "summary: 'This blog explores AutoML and NAS, critical in optimizing machine learning.'"
    ],
    bodyHashLines := [
      "## Introduction",
      "# Part 1: A Primer on Automated Machine Learning (AutoML)",
      "# Understanding AutoML",
      "# Here's an example of AutoML using the Python library auto-sklearn",
      "# Load a sample dataset",
      "# Split the data",
      "# Initialize the AutoSklearnRegressor",
      "# Fit the model",
      "# Make predictions",
      "# Print the model performance",
      "# Why AutoML?",
      "# Efficiency",
      "# AutoML allows for efficient model selection and hyperparameter tuning",
      "# Accessibility",
      "#Reproducibility",
      "# The systematic approach of AutoML lends itself well to reproducibility",
      "# AutoML Challenges",
      "# Overfitting",
      "# Potential for overfitting in AutoML",
      "# Computation Time",
      "# Computation time can be high in AutoML",
      "# Lack of Transparency",
      "# AutoML can lack transparency"
    ] }

/-- Translated from src/unnamed/part_002: front-matter lines (between the leading --- delimiters) and the body lines that start with a hash, kept verbatim and in order. -/
def ingestionDoc : MarkdownDoc :=
  { fmLines := [
      "title: An In-Depth Exploration of Data Analysis - Mechanisms of Data Ingestion",
      "date: '2023-06-04'",
      "tags: ['Python', 'Data analysis', 'Pandas' 'Data ingestion', 'Data Engineering']",
      "draft: false",
      "summary: 'technical overview of data ingestion from diverse sources, such as file systems and databases, employing the Python data manipulation library, pandas.'"
    ],
    bodyHashLines := [
      "## Table of Contents",
      "## Reading data from a CSV file",
      "### Read comma separated file",
      "### Read tab separated file",
      "### Read semicolon separated file",
      "## Reading Data in SQL flavour",
      "### MySQL database",
      "# provide a connection string/URL",
      "# produce an Engine object based on a URL",
      "# read SQL query or database table into a DataFrame.",
      "# return the first 5 rows of the dataframe",
      "### PostgreSQL",
      "# produce an Engine object based on a postgresql database URL",
      "# read SQL query or database table into a DataFrame.",
      "# return the first 5 rows of the dataframe",
      "### SQlite database",
      "# connect to a database",
      "# read database data into a pandas DataFrame",
      "# return the first 5 rows of the dataframe",
      "## Ingestion of Data from JSON Files",
      "## Reference(s)"
    ] }

/-- Translated from src/data/projectsData.js: one const declaration binding the array literal, then a default export of that identifier. -/
def projectsModuleStmts : List Stmt :=
  [Stmt.constDecl "projectsData" (Expr.lit (JSValue.arr projectsData)),
   Stmt.exportDefault (Expr.ident "projectsData")]

/-- Translated from src/unnamed/part_003: one const declaration binding the array literal, then a default export of that identifier. -/
def experienceModuleStmts : List Stmt :=
  [Stmt.constDecl "experienceData" (Expr.lit (JSValue.arr experienceData)),
   Stmt.exportDefault (Expr.ident "experienceData")]

/-- Translated from the repository tree: its eight source files. -/
def repository : List RepoFile :=
  [RepoFile.jsModule "src/data/projectsData.js" projectsModuleStmts,
   RepoFile.markdownFile "src/data/authors/default.md" [authorDoc],
   RepoFile.markdownFile "src/data/blog/creating-an-NFT.md" [nftFullDoc],
   RepoFile.markdownFile "src/data/blog/microservices-with-go-and-rabbitmq.md" [microservicesDoc],
   RepoFile.markdownFile "src/unnamed/part_000" [nftShortDoc, autoMLLongDoc],
   RepoFile.markdownFile "src/unnamed/part_001" [autoMLShortDoc],
   RepoFile.markdownFile "src/unnamed/part_002" [ingestionDoc],
   RepoFile.jsModule "src/unnamed/part_003" experienceModuleStmts]

mutual

/-- A value is plain data: built from string, number, boolean and null literals by arrays and objects, with no function value anywhere inside. -/
def valueIsData : JSValue → Bool
  | JSValue.str _ => true
  | JSValue.num _ => true
  | JSValue.boolean _ => true
  | JSValue.nullV => true
  | JSValue.arr es => valuesAreData es
  | JSValue.obj fs => fieldsAreData fs
  | JSValue.closure _ => false

def valuesAreData : List JSValue → Bool
  | [] => true
  | v :: vs => valueIsData v && valuesAreData vs

def fieldsAreData : List (String × JSValue) → Bool
  | [] => true
  | (_, v) :: fs => valueIsData v && fieldsAreData fs

end

/-- A module is one const declaration bound to an array literal of plain data plus a default export of that same identifier, and nothing else. -/
def stmtsArePlainDataExport : List Stmt → Bool
  | [Stmt.constDecl n (Expr.lit (JSValue.arr vs)), Stmt.exportDefault (Expr.ident m)] =>
      n == m && valuesAreData vs
  | _ => false

/-- A file is static content: a JavaScript file that is a plain data export, or a markdown file (whose documents are inert text by construction). -/
def fileIsStaticContent : RepoFile → Bool
  | RepoFile.jsModule _ stmts => stmtsArePlainDataExport stmts
  | RepoFile.markdownFile _ _ => true

def docsOf : RepoFile → List MarkdownDoc
  | RepoFile.jsModule _ _ => []
  | RepoFile.markdownFile _ ds => ds

/-- All markdown documents of the repository, in file order. -/
def allDocs : List MarkdownDoc := (repository.map docsOf).flatten

def getStrField (key : String) (v : JSValue) : Option String :=
  match v with
  | JSValue.obj fs =>
      match lookupVar fs key with
      | some (JSValue.str s) => some s
      | _ => none
  | _ => none

def isStrField : String × JSValue → Bool
  | (_, JSValue.str _) => true
  | _ => false

/-- The value is an object whose field names are exactly `keys`, in order, and whose field values are all strings. -/
def objHasExactlyStringFields (keys : List String) : JSValue → Bool
  | JSValue.obj fields => (fields.map Prod.fst == keys) && fields.all isStrField
  | _ => false

def projectTitles : List String := projectsData.filterMap (getStrField "title")

/-- The single-quote character. -/
def squote : Char := Char.ofNat 39

/-- Space or tab. -/
def isBlankChar (c : Char) : Bool := c == ' ' || c == '\t'

/-- The first list is a prefix of the second. -/
def charListStarts : List Char → List Char → Bool
  | [], _ => true
  | _ :: _, [] => false
  | p :: ps, c :: cs => p == c && charListStarts ps cs

/-- Drop the first list from the front of the second, when it is a prefix. -/
def dropPre : List Char → List Char → Option (List Char)
  | [], cs => some cs
  | _ :: _, [] => none
  | p :: ps, c :: cs => if p == c then dropPre ps cs else none

def strFieldStartsWith (key pre : String) (v : JSValue) : Bool :=
  match getStrField key v with
  | some s => !s.data.isEmpty && charListStarts pre.data s.data
  | none => false

def fmRawChars (key : List Char) : List String → Option (List Char)
  | [] => none
  | l :: ls =>
      match dropPre (key ++ [':']) l.data with
      | some rest => some rest
      | none => fmRawChars key ls

/-- The raw text after the first front-matter line that starts with `key` followed by a colon. -/
def fmRaw (key : String) (lines : List String) : Option String :=
  (fmRawChars key.data lines).map fun cs => { data := cs }

def trimChars (cs : List Char) : List Char :=
  ((cs.dropWhile isBlankChar).reverse.dropWhile isBlankChar).reverse

def unquoteChars (cs : List Char) : List Char :=
  match cs with
  | [] => []
  | c :: rest =>
      if c == squote then
        match rest.reverse with
        | d :: mid => if d == squote then mid.reverse else cs
        | [] => cs
      else cs

/-- Modelled from the spec: blog posts carry "front-matter metadata (title, date, tags)" and are "consumed by an external renderer not included in this repository excerpt"; the renderer reads a front-matter value as a YAML scalar, so surrounding blanks are dropped and a single-quoted value loses its quotes. -/
def parseScalar (s : String) : String := { data := unquoteChars (trimChars s.data) }

def fmTitle (d : MarkdownDoc) : Option String := (fmRaw "title" d.fmLines).map parseScalar

def fmDate (d : MarkdownDoc) : Option String := (fmRaw "date" d.fmLines).map parseScalar

def skipSpaces : List Char → List Char
  | [] => []
  | c :: cs => if c == ' ' then skipSpaces cs else c :: cs

/-- Read the body of a single-quoted scalar up to its closing quote; returns the content and the rest of the input. -/
def parseQuotedBody : List Char → Option (List Char × List Char)
  | [] => none
  | c :: cs =>
      if c == squote then some ([], cs)
      else
        match parseQuotedBody cs with
        | some (s, rest) => some (c :: s, rest)
        | none => none

/-- Modelled from the spec (the external renderer, absent from the repository, reads the tags value as YAML): items of a flow sequence are single-quoted scalars and consecutive items must be separated by a comma before the closing bracket. The first argument is recursion fuel. -/
def parseSeqItems : Nat → List Char → Option (List (List Char))
  | 0, _ => none
  | fuel + 1, cs =>
      match skipSpaces cs with
      | [] => none
      | c :: rest =>
          if c == squote then
            match parseQuotedBody rest with
            | none => none
            | some (s, rest2) =>
                match skipSpaces rest2 with
                | [] => none
                | d :: rest3 =>
                    if d == ',' then
                      match parseSeqItems fuel rest3 with
                      | some items => some (s :: items)
                      | none => none
                    else if d == ']' then
                      if (skipSpaces rest3).isEmpty then some [s] else none
                    else none
          else none

/-- Modelled from the spec: parse a front-matter tags value as a YAML flow sequence of single-quoted strings. -/
def parseTagsString (s : String) : Option (List String) :=
  match skipSpaces s.data with
  | [] => none
  | c :: rest =>
      if c == '[' then
        (parseSeqItems (s.data.length + 1) rest).map (List.map fun cs => { data := cs })
      else none

def fmTags (d : MarkdownDoc) : Option (List String) :=
  match fmRaw "tags" d.fmLines with
  | some s => parseTagsString s
  | none => none

/-- A blog post document: its front matter has title, date and tags lines. -/
def isBlogPost (d : MarkdownDoc) : Bool :=
  (fmRaw "title" d.fmLines).isSome && (fmRaw "date" d.fmLines).isSome &&
    (fmRaw "tags" d.fmLines).isSome

/-- An author profile document: its front matter has name and avatar lines. -/
def isAuthorProfile (d : MarkdownDoc) : Bool :=
  (fmRaw "name" d.fmLines).isSome && (fmRaw "avatar" d.fmLines).isSome

def docHasTag (t : String) (d : MarkdownDoc) : Bool := ((fmTags d).getD []).contains t

def docHasTitle (t : String) (d : MarkdownDoc) : Bool := fmTitle d == some t

/-- The name a file exports as a const-bound array literal, when it is such a module. -/
def jsArrayExportName : RepoFile → Option String
  | RepoFile.jsModule _ [Stmt.constDecl n (Expr.lit (JSValue.arr _)), Stmt.exportDefault (Expr.ident m)] =>
      if n == m then some n else none
  | _ => none

/-- C1: evaluating the projectsData module yields exactly the 10-element array literal written in the file, and evaluating the experienceData module yields exactly its 3-element array literal, under every environment; module evaluation applies no computation, validation or transformation to either array. -/
theorem claim1_data_modules_export_literals :
    ∀ env : String → Option JSValue,
      evalModule env projectsModuleStmts = some (JSValue.arr projectsData) ∧
      evalModule env experienceModuleStmts = some (JSValue.arr experienceData) ∧
      projectsData.length = 10 ∧ experienceData.length = 3 :=
  fun _ => ⟨rfl, rfl, rfl, rfl⟩

/-- C2: every source file of the repository is static content: each JavaScript file is exactly one const declaration bound to an array literal of plain data plus a default export of that identifier, with no function value, conditional, loop or other statement anywhere, and every other file is markdown text. -/
theorem claim2_no_runtime_logic :
    repository.all fileIsStaticContent = true := by decide

/-- C3: every element of projectsData is an object whose fields are exactly title, description, imgSrc and href, in that order, each a string; every element of experienceData is an object whose fields are exactly title, company, location, range, url, text1, text2 and text3, each a string; so no field of any element holds a number, list, nested object or null. -/
theorem claim3_record_shapes :
    projectsData.all (objHasExactlyStringFields ["title", "description", "imgSrc", "href"]) = true ∧
    experienceData.all (objHasExactlyStringFields
      ["title", "company", "location", "range", "url", "text1", "text2", "text3"]) = true := by
  exact ⟨by decide, by decide⟩

/-- C4 (code bug): the data-ingestion post's front matter has a tags line that does not parse as a YAML list of strings (a comma is missing between two entries), although every blog document has title and date lines and the other five blog documents' tags lines do parse. -/
theorem claim4_tags_malformed :
    fmTags ingestionDoc = none ∧
    fmRaw "tags" ingestionDoc.fmLines =
      some " ['Python', 'Data analysis', 'Pandas' 'Data ingestion', 'Data Engineering']" ∧
    (allDocs.filter isBlogPost).all (fun d => (fmTitle d).isSome && (fmDate d).isSome) = true ∧
    (allDocs.filter isBlogPost).length = 6 ∧
    ((allDocs.filter isBlogPost).filter (fun d => (fmTags d).isSome)).length = 5 := by
  refine ⟨by decide, by decide, by decide, by decide, by decide⟩

/-- C5: the repository's documents include an article tagged Blockchain and NFTs, an AutoML article, a microservices tutorial (tagged Microservices), and a data-ingestion article, witnessed by front-matter titles and tags; exactly one author profile document; and exactly the two const-bound array modules projectsData and experienceData. -/
theorem claim5_content_inventory :
    allDocs.any (fun d => docHasTag "Blockchain" d && docHasTag "NFTs" d) = true ∧
    allDocs.any (docHasTitle "AutoML and Neural Architecture Search.") = true ∧
    allDocs.any (fun d => docHasTag "Microservices" d &&
      docHasTitle "Implementing Simple Microservices with Go and RabbitMQ in eCommerce" d) = true ∧
    allDocs.any (docHasTitle
      "An In-Depth Exploration of Data Analysis - Mechanisms of Data Ingestion") = true ∧
    (allDocs.filter isAuthorProfile).length = 1 ∧
    repository.filterMap jsArrayExportName = ["projectsData", "experienceData"] := by
  refine ⟨by decide, by decide, by decide, by decide, by decide, by decide⟩

/-- C6: module evaluation is deterministic and environment-independent: any two evaluations of the projectsData module, or of the experienceData module, under any two environments, yield identical exported values. -/
theorem claim6_evaluation_deterministic :
    ∀ envA envB : String → Option JSValue,
      evalModule envA projectsModuleStmts = evalModule envB projectsModuleStmts ∧
      evalModule envA experienceModuleStmts = evalModule envB experienceModuleStmts :=
  fun _ _ => ⟨rfl, rfl⟩

/-- C7: every href of projectsData and every url of experienceData is a non-empty string starting with https://, and every imgSrc of projectsData is a non-empty string starting with /static/images/. -/
theorem claim7_url_prefixes :
    projectsData.all (fun v => strFieldStartsWith "href" "https://" v &&
      strFieldStartsWith "imgSrc" "/static/images/" v) = true ∧
    experienceData.all (strFieldStartsWith "url" "https://") = true := by
  exact ⟨by decide, by decide⟩

/-- C8: two distinct markdown documents of the repository (the AutoML document of part_000 and the one of part_001) have equal parsed front-matter titles and equal dates while their bodies differ, so keying posts by title or a title-derived slug would collide. -/
theorem claim8_duplicate_titles :
    autoMLLongDoc ∈ allDocs ∧ autoMLShortDoc ∈ allDocs ∧
    autoMLLongDoc ≠ autoMLShortDoc ∧
    fmTitle autoMLLongDoc = some "AutoML and Neural Architecture Search." ∧
    fmTitle autoMLShortDoc = some "AutoML and Neural Architecture Search." ∧
    fmDate autoMLLongDoc = some "2023-07-06" ∧
    fmDate autoMLShortDoc = some "2023-07-06" ∧
    autoMLLongDoc.bodyHashLines ≠ autoMLShortDoc.bodyHashLines := by
  refine ⟨by decide, by decide, by decide, by decide, by decide, by decide, by decide, by decide⟩

/-- C9: the title fields of the 10 elements of projectsData are pairwise distinct strings. -/
theorem claim9_project_titles_distinct :
    projectTitles.length = 10 ∧ projectTitles.Nodup := by
  exact ⟨by decide, by decide⟩
